import Mathlib

/-!
Verification of the content-filter classification core of the Flight-Search
repository (`searx/plugins/content_filter.py`).

The Python module is shallowly embedded below.  Strings are Lean `String`s
(lists of characters); the model is faithful for ASCII input, which is all
the rule table and the claims use.  Python's compiled regular expressions
fall in two groups:

* the boundary-delimited literal-term matchers built by `_compile_rules`
  (the regex `(?:^|[sep])term(?:[sep]|$|s|es|ing|ed)` applied with
  `re.search`) are embedded exactly as the executable predicate
  `termSearch`;
* the handful of raw "patterns" entries of the category table are kept as
  their raw strings, and their semantics is a parameter `pm : String →
  String → Bool` (pattern source → input → matched).  Every theorem below
  either holds for all `pm` or is decided by the literal-term rules alone.

Module-level mutable state (the blocked-domain set, `flask.g.risk_score`,
`request.blocked_message`/`blocked_hotline`) is passed explicitly.
-/

set_option maxRecDepth 100000

namespace ContentFilter

/-- Python `\s` (ASCII part): the whitespace characters. -/
def wsChars : List Char := [' ', '\t', '\n', '\r', '\x0b', '\x0c']

def isWS (c : Char) : Bool := wsChars.contains c

/-- The separator class `[\s\-_/,;.!?\"']` of the compiled term rules. -/
def sepChars : List Char :=
  [' ', '\t', '\n', '\r', '\x0b', '\x0c', '-', '_', '/', ',', ';', '.', '!', '?', '\"', '\x27']

def isSep (c : Char) : Bool := sepChars.contains c

/-- Python `\w` (ASCII part): letters, digits and underscore. -/
def isWord (c : Char) : Bool := c.isAlphanum || c == '_'

/-- Python `str.lower` (ASCII model). -/
def pyLower (s : String) : String := String.mk (s.data.map Char.toLower)

/-- Python `str.strip` (ASCII whitespace model). -/
def pyStrip (s : String) : String :=
  String.mk (((s.data.dropWhile isWS).reverse.dropWhile isWS).reverse)

/-- The trailing alternation `(?:[sep]|$|s|es|ing|ed)` of a compiled term
rule: what may follow the literal term. -/
def followOk (rest : List Char) : Bool :=
  match rest with
  | [] => true
  | c :: tail =>
    isSep c || c == 's' ||
    (c == 'e' && (tail.head? == some 's' || tail.head? == some 'd')) ||
    (c == 'i' && tail.take 2 == ['n', 'g'])

/-- The term and its permitted follower start here. -/
def startsTermFollow (term rest : List Char) : Bool :=
  rest.take term.length == term && followOk (rest.drop term.length)

/-- `re.search` of the compiled rule `(?:^|[sep])term(?:[sep]|$|s|es|ing|ed)`:
either the term (plus follower) is at the start of the string, or some
separator character is immediately followed by it. -/
def termSearch (term s : List Char) : Bool :=
  startsTermFollow term s ||
  (List.range s.length).any fun j =>
    (match s[j]? with | some c => isSep c | none => false) &&
    startsTermFollow term (s.drop (j + 1))

/-! ### Educational-context detector (`_EDUCATIONAL_PREFIXES` / `_has_educational_context`)

Each of the eight compiled patterns is embedded as an executable matcher.
The regexes use only literals, `\s+`, `\w+`, the optional suffixes
`s?` / `does?` and trailing `\b`; since `\s` / `\w` are disjoint from the
literal characters that follow them, greedy matching without backtracking
is equivalent, with optional-suffix alternatives tried longest first. -/

/-- Consume a literal. -/
def litP (lit : String) (l : List Char) : Option (List Char) :=
  if l.take lit.length == lit.data then some (l.drop lit.length) else none

/-- Consume `\s+` (greedy). -/
def wsP (l : List Char) : Option (List Char) :=
  match l with
  | c :: rest => if isWS c then some (rest.dropWhile isWS) else none
  | [] => none

/-- Consume `\w+` (greedy). -/
def wordP (l : List Char) : Option (List Char) :=
  match l with
  | c :: rest => if isWord c then some (rest.dropWhile isWord) else none
  | [] => none

/-- `\b` placed after a word character: next char is absent or not a word char. -/
def wbAfterWord (l : List Char) : Bool :=
  match l with
  | [] => true
  | c :: _ => !isWord c

/-- First literal of the alternation that consumes a prefix (longest first
where one alternative is a prefix of another). -/
def altLit (lits : List String) (l : List Char) : Option (List Char) :=
  match lits with
  | [] => none
  | lit :: rest =>
    match litP lit l with
    | some r => some r
    | none => altLit rest l

/-- A literal followed by `\b`. -/
def tryLitWb (lit : String) (l : List Char) : Bool :=
  match litP lit l with
  | some r => wbAfterWord r
  | none => false

/-- `^(?:history|origins?|evolution|timeline)\s+(?:of|behind)\b` -/
def eduP1 (l : List Char) : Bool :=
  match altLit ["history", "origins", "origin", "evolution", "timeline"] l with
  | some r =>
    match wsP r with
    | some r2 => tryLitWb "of" r2 || tryLitWb "behind" r2
    | none => false
  | none => false

/-- `^what\s+(?:is|are|was|were)\b` -/
def eduP2 (l : List Char) : Bool :=
  match litP "what" l with
  | some r =>
    match wsP r with
    | some r2 => tryLitWb "is" r2 || tryLitWb "are" r2 || tryLitWb "was" r2 || tryLitWb "were" r2
    | none => false
  | none => false

/-- `^(?:effects?|impact|consequences?|dangers?)\s+of\b` -/
def eduP3 (l : List Char) : Bool :=
  match altLit ["effects", "effect", "impact", "consequences", "consequence", "dangers", "danger"] l with
  | some r =>
    match wsP r with
    | some r2 => tryLitWb "of" r2
    | none => false
  | none => false

/-- `^(?:science|chemistry|physics|biology)\s+(?:of|behind)\b` -/
def eduP4 (l : List Char) : Bool :=
  match altLit ["science", "chemistry", "physics", "biology"] l with
  | some r =>
    match wsP r with
    | some r2 => tryLitWb "of" r2 || tryLitWb "behind" r2
    | none => false
  | none => false

/-- `^how\s+does?\s+\w+\s+work\b` -/
def eduP5 (l : List Char) : Bool :=
  match litP "how" l with
  | some r =>
    match wsP r with
    | some r2 =>
      match altLit ["does", "doe"] r2 with
      | some r3 =>
        match wsP r3 with
        | some r4 =>
          match wordP r4 with
          | some r5 =>
            match wsP r5 with
            | some r6 => tryLitWb "work" r6
            | none => false
          | none => false
        | none => false
      | none => false
    | none => false
  | none => false

/-- `^why\s+(?:is|are|do|does|did|was|were)\b` -/
def eduP6 (l : List Char) : Bool :=
  match litP "why" l with
  | some r =>
    match wsP r with
    | some r2 =>
      tryLitWb "is" r2 || tryLitWb "are" r2 || tryLitWb "does" r2 || tryLitWb "do" r2 ||
      tryLitWb "did" r2 || tryLitWb "was" r2 || tryLitWb "were" r2
    | none => false
  | none => false

/-- `for\s+kids` / `for\s+students` / `for\s+school` followed by `\b`. -/
def tryForX (word : String) (l : List Char) : Bool :=
  match litP "for" l with
  | some r =>
    match wsP r with
    | some r2 => tryLitWb word r2
    | none => false
  | none => false

/-- Body of `\b(?:for\s+kids|for\s+students|for\s+school|homework|essay|report|project)\b`. -/
def eduP7at (l : List Char) : Bool :=
  tryForX "kids" l || tryForX "students" l || tryForX "school" l ||
  tryLitWb "homework" l || tryLitWb "essay" l || tryLitWb "report" l || tryLitWb "project" l

/-- Body of `\b(?:definition|meaning|explained|overview|summary)\b`. -/
def eduP8at (l : List Char) : Bool :=
  tryLitWb "definition" l || tryLitWb "meaning" l || tryLitWb "explained" l ||
  tryLitWb "overview" l || tryLitWb "summary" l

/-- `re.search` for a pattern starting with `\b` followed by a word
character: try every position whose predecessor is absent or non-word. -/
def searchWB (p : List Char → Bool) (s : List Char) : Bool :=
  (List.range (s.length + 1)).any fun i =>
    (i == 0 || (match s[i - 1]? with | some c => !isWord c | none => false)) && p (s.drop i)

/-- `_has_educational_context`: true iff any of the eight patterns matches. -/
def has_educational_context (q : String) : Bool :=
  eduP1 q.data || eduP2 q.data || eduP3 q.data || eduP4 q.data || eduP5 q.data || eduP6 q.data ||
  searchWB eduP7at q.data || searchWB eduP8at q.data

/-! ### The static category table (`_CATEGORIES`)

Fields in order: id, terms, pats (the raw regex "patterns" strings, kept
verbatim; `\x7b`/`\x7d` are the brace characters and `\x27` the
apostrophe), risk, reducible, label, message, hotline (`""` when the
source entry has none). -/

structure Category where
  id : String
  terms : List String
  pats : List String
  risk : Int
  reducible : Bool
  label : String
  message : String
  hotline : String
deriving DecidableEq, Repr, Inhabited

def CATEGORIES : List Category := [
  ⟨"weapons",
    ["gun", "guns", "firearm", "firearms", "rifle", "rifles",
     "shotgun", "shotguns", "pistol", "pistols", "revolver",
     "handgun", "handguns", "ammo", "ammunition", "ar-15", "ar15",
     "ak-47", "ak47", "assault rifle", "assault weapon",
     "sniper rifle", "machine gun", "submachine gun", "uzi",
     "glock", "buy gun", "buy guns", "gun shop", "gun store",
     "gun broker", "gunbroker", "gunshop",
     "weapon", "weapons", "semi-automatic", "semiautomatic",
     "concealed carry", "gun dealer", "gun sale",
     "silencer", "suppressor", "bump stock"],
    [],
    90, false, "weapons",
    "This search was blocked because it relates to: weapons.",
    ""⟩,
  ⟨"explosives",
    ["bomb", "bombs", "how to make a bomb", "pipe bomb",
     "explosive", "explosives", "dynamite", "c4 explosive",
     "grenade", "grenades", "molotov cocktail", "detonator",
     "how to make explosives", "improvised explosive",
     "ied", "incendiary"],
    [],
    95, false, "explosives",
    "This search was blocked because it relates to: dangerous materials.",
    ""⟩,
  ⟨"drugs",
    ["cocaine", "heroin", "methamphetamine", "meth",
     "crystal meth", "crack cocaine", "fentanyl", "opium",
     "lsd", "ecstasy", "mdma", "ketamine",
     "pcp", "angel dust", "shrooms", "magic mushrooms",
     "psilocybin", "dmt", "ayahuasca", "ghb",
     "buy drugs", "drug dealer", "drug market",
     "darknet market", "silk road", "how to make meth",
     "how to make drugs", "how to cook meth",
     "marijuana", "weed", "cannabis", "thc", "edibles",
     "vape", "vaping", "juul", "e-cigarette",
     "oxycontin", "oxycodone", "xanax", "percocet",
     "adderall", "codeine", "lean", "purple drank",
     "whippets", "nitrous oxide", "inhalants",
     "bath salts", "spice drug", "synthetic cannabinoid",
     "amphetamine", "barbiturate", "benzodiazepine"],
    [],
    90, false, "drugs",
    "This search was blocked because it relates to: drugs or controlled substances.",
    "If you or someone you know is struggling with substance use, contact the SAMHSA National Helpline: 1-800-662-4357 (free, confidential, 24/7)."⟩,
  ⟨"self_harm",
    ["how to kill myself", "how to commit suicide",
     "suicide methods", "ways to die", "i want to die",
     "kill myself", "end my life", "painless death",
     "self harm", "self-harm", "cutting myself",
     "how to cut yourself", "how to hurt myself",
     "overdose", "how to overdose",
     "suicidal", "suicide", "hang myself",
     "jump off a bridge", "slit wrists",
     "want to kill myself", "no reason to live",
     "better off dead", "how to disappear",
     "pro ana", "pro mia", "thinspo", "thinspiration",
     "eating disorder tips"],
    [],
    95, false, "self-harm",
    "It looks like you or someone you know might be going through a tough time. You are not alone, and there are people who care and want to help.",
    "988 Suicide & Crisis Lifeline: Call or text 988 (available 24/7). Crisis Text Line: Text HOME to 741741."⟩,
  ⟨"adult_content",
    ["porn", "porno", "pornography", "pornhub", "xvideos",
     "xnxx", "onlyfans", "chaturbate", "brazzers",
     "hentai", "rule34", "rule 34", "xxx", "nsfw",
     "nude", "nudes", "naked", "sex video", "sex tape",
     "erotic", "erotica", "playboy", "penthouse",
     "escort", "escorts", "escort service",
     "strip club", "stripper", "strippers",
     "hookup", "hook up site", "booty call",
     "milf", "dilf", "bdsm", "fetish",
     "camgirl", "cam girl", "webcam girl",
     "adult video", "adult content", "adult site",
     "nude pics", "leaked nudes",
     "sexting", "sext",
     "sexy", "sexiest", "sexier", "sexi",
     "masturbation", "masturbate", "masturbating",
     "blow job", "blowjob", "blowjobs",
     "handjob", "hand job",
     "jack off", "jacking off", "jerk off", "jerking off",
     "wank", "wanking",
     "pussy", "pussies", "vagina",
     "boob", "boobs", "tits", "titties", "breasts",
     "dick pic", "dick pics",
     "hickey", "hickeys", "love bite",
     "oral sex", "anal sex",
     "cum", "cumming", "cumshot",
     "threesome", "threesomes",
     "orgasm", "orgasms",
     "nipple", "nipples", "nip slip",
     "vibrator", "dildo", "sex toy", "sex toys",
     "lingerie",
     "striptease", "lap dance",
     "fingering",
     "topless", "shirtless",
     "twerk", "twerking",
     "foreplay",
     "one night stand",
     "friends with benefits",
     "sugar daddy", "sugar mommy",
     "dominatrix",
     "kinky", "kink",
     "smut", "smutty",
     "lewd",
     "ahegao",
     "doujinshi", "doujin",
     "fap", "fapping",
     "deepfake",
     "cleavage",
     "thong", "g-string",
     "pegging",
     "rimjob", "rim job",
     "sex position", "sex positions",
     "kamasutra", "kama sutra",
     "penis", "genitals", "genitalia",
     "pubic",
     "sex ed", "sex education",
     "how babies are made", "how are babies made",
     "where do babies come from",
     "r34", "r 34",
     "yaoi", "yuri",
     "furry porn", "furry nsfw",
     "rule 63",
     "hot girls", "hot guys", "hot women", "hot men",
     "bikini", "bikini pics",
     "upskirt", "downblouse",
     "camel toe", "cameltoe",
     "bulge",
     "make out", "making out",
     "grind", "grinding",
     "horny", "aroused", "arousal", "turned on",
     "puberty photos", "puberty pictures", "puberty pics"],
    ["(?:what|how)\\s+(?:do|does|did|would|should)\\s+(?:boyfriend|girlfriend|couple|partner|husband|wife|boy\\s*friend|girl\\s*friend)s?(?:\\s+and\\s+(?:boyfriend|girlfriend|couple|partner|husband|wife)s?)?\\s+(?:do|like|try)\\s+(?:together|alone|in\\s+bed|at\\s+night|when\\s+alone|in\\s+private)",
     "(?:boyfriend|girlfriend|couple|partner|husband|wife)s?(?:\\s+and\\s+(?:boyfriend|girlfriend|partner)s?)?\\s+.\x7b0,20\x7d(?:together|alone|in\\s+bed|at\\s+night|when\\s+alone|in\\s+private)",
     "(?:picture|photo|pic|image|video)s?\\s+(?:of\\s+)?(?:people|women|men|girl|boy|teen|person|bodie)s?\\s+(?:with\\s+)?(?:no\\s+(?:shirt|clothes|clothing|top)|naked|nude|topless|shirtless|undress|without\\s+(?:shirt|clothes|clothing))",
     "(?:how|where)\\s+(?:are\\s+)?(?:babies?|children|kids?)\\s+(?:are\\s+)?(?:really\\s+)?(?:actually\\s+)?(?:made|come\\s+from|born|conceived|created)",
     "\\b(?:babies?|children|kids?)\\s+.\x7b0,15\x7d(?:made|come\\s+from|conceived|created)\\b",
     "sexy\\s+(?:yoga|dance|outfit|pose|costume|photo|pic|picture|video|move|position)s?",
     "(?:what\\s+does?\\s+)?(?:sexy|sexi)\\s+mean",
     "(?:change|changing)s?\\s+(?:in\\s+)?(?:body|bodies)\\s+(?:during|for|in)\\s+puberty\\b.*?(?:photo|pic|picture|image)s?",
     "\\bpuberty\\b.\x7b0,30\x7d(?:photo|pic|picture|image)s?\\b",
     "(?:where|how|why)\\s+(?:do|does|are)\\s+(?:girl|boy|women|men|teen)s?\\s+(?:have|get|grow)\\s+(?:breast|boob|tit|chest)s?",
     "(?:blow\\s*job|hand\\s*job|rim\\s*job)\\s+(?:tip|trick|technique|instruction|tutorial|how|guide)s?",
     "(?:jack|jerk|wank)(?:ing)?\\s+off\\s+(?:instruction|tutorial|how|tip|guide)s?",
     "(?:sex|sexual)\\s+(?:education|ed)\\s+(?:cartoon|video|animation|show|episode)s?",
     "(?:what\\s+is\\s+(?:a\\s+)?)?(?:hickey|love\\s+bite|making\\s+out|french\\s+kiss)(?:\\s+and\\s+how)?",
     "(?:what\\s+is\\s+(?:a\\s+)?)?(?:masturbation|blow\\s*job|hand\\s*job|orgasm|foreplay|oral\\s+sex)\\s+(?:for|explained|mean|definition)",
     "(?:what\\s+is\\s+(?:a\\s+)?)?(?:pussy|dick|cock|penis|vagina|boob|tit|breast)\\b",
     "(?:how\\s+to|ways?\\s+to|best\\s+way\\s+to)\\s+(?:give|get|make|do)\\s+(?:a\\s+)?(?:hickey|love\\s+bite|blow\\s*job|hand\\s*job)",
     "\\b(?:no\\s+shirt|shirtless|topless|braless)\\s+(?:at|on|in)\\s+(?:the\\s+)?(?:beach|pool|gym|park)"],
    90, false, "adult content",
    "This search was blocked because it relates to: adult content.",
    ""⟩,
  ⟨"violence_gore",
    ["gore", "beheading", "execution video",
     "murder video", "death video", "snuff",
     "torture video", "cartel video", "cartel execution",
     "liveleak death", "bestgore", "faces of death",
     "how to kill someone", "how to murder",
     "how to poison someone", "how to stab",
     "how to strangle", "hit man", "hitman for hire",
     "hire assassin", "serial killer methods"],
    [],
    90, false, "violence",
    "This search was blocked because it relates to: violence.",
    ""⟩,
  ⟨"gambling",
    ["online casino", "online gambling", "sports betting",
     "bet online", "poker online", "slot machine",
     "draftkings", "fanduel", "bovada", "betway",
     "online slots", "roulette online", "blackjack online",
     "csgo gambling", "skin gambling", "crypto casino"],
    [],
    85, false, "gambling",
    "This search was blocked because it relates to: gambling.",
    ""⟩,
  ⟨"illegal_activities",
    ["how to hack", "hacking tutorial", "ddos attack",
     "how to ddos", "phishing kit", "carding",
     "credit card fraud", "identity theft how to",
     "how to steal", "how to shoplift", "shoplifting tips",
     "fake id", "fake identity", "counterfeit money",
     "how to pick a lock", "how to break in",
     "how to hotwire", "how to hotwire a car",
     "dark web", "darkweb", "tor hidden services",
     "darknet", "how to access dark web",
     "swatting", "how to swat"],
    [],
    90, false, "illegal activity",
    "This search was blocked because it relates to: illegal activities.",
    ""⟩,
  ⟨"hate_speech",
    ["white supremacy", "white supremacist", "neo nazi",
     "nazi propaganda", "kkk", "ku klux klan",
     "racial slur", "hate group"],
    [],
    90, false, "hate speech",
    "This search was blocked because it relates to: hateful content.",
    ""⟩,
  ⟨"tobacco_alcohol",
    ["buy cigarettes", "buy tobacco", "buy alcohol",
     "buy beer online", "buy liquor online", "buy vape",
     "juul pods", "vape juice"],
    [],
    85, false, "tobacco or alcohol",
    "This search was blocked because it relates to: age-restricted products.",
    ""⟩,
  ⟨"proxies",
    ["croxyproxy", "croxy proxy", "croxy",
     "anuraos", "anura os", "anura proxy",
     "petezah", "petezah proxy",
     "frogies arcade", "frogies",
     "web proxy", "free proxy", "proxy site", "proxy sites",
     "proxy browser", "proxy server free", "proxy unblock",
     "unblock proxy", "unblock sites", "unblock websites",
     "unblocker", "site unblocker", "school unblocker",
     "bypass filter", "bypass school filter", "bypass firewall",
     "bypass blocker", "bypass web filter",
     "unblocked games", "unblocked sites", "unblock", "unblocker", "unblocked",
     "proxy list", "proxy download",
     "quasar proxy", "quasar browser", "quasar unblocker"],
    ["(?:^|\\s)pr[0]xy(?:\\s|$)",
     "(?:^|\\s)prox[iIeE]e?(?:\\s|$)",
     "(?:^|\\s)prx?oy(?:\\s|$)",
     "(?:^|\\s)porxy(?:\\s|$)",
     "^proxy$"],
    80, false, "filter circumvention",
    "This search was blocked because it relates to: proxy or filter circumvention tools.",
    ""⟩,
  ⟨"domestic_violence",
    ["domestic violence", "domestic abuse",
     "abusive relationship", "abusive partner",
     "my partner hits me", "my husband hits me", "my wife hits me",
     "my boyfriend hits me", "my girlfriend hits me",
     "abuse at home", "being abused at home",
     "he hits me", "she hits me",
     "scared of my partner", "controlling relationship",
     "intimate partner violence"],
    [],
    90, true, "domestic violence",
    "If you or someone you know is in a dangerous situation, help is available right now.",
    "National Domestic Violence Hotline: 1-800-799-7233 (24/7, free, confidential). If you are in immediate danger, call 911."⟩,
  ⟨"sexual_assault",
    ["sexual assault", "sexually assaulted",
     "rape", "raped", "molested", "molestation",
     "touched inappropriately", "someone touched me",
     "sexual abuse", "sexually abused",
     "groped", "groping",
     "date rape", "statutory rape"],
    [],
    95, false, "sexual assault",
    "If you or someone you know has been affected, confidential help is available.",
    "RAINN National Sexual Assault Hotline: 1-800-656-4673 (24/7, free, confidential). If you are in immediate danger, call 911."⟩,
  ⟨"child_abuse",
    ["child abuse", "child molest", "child molestation",
     "my parents hurt me", "my dad hits me", "my mom hits me",
     "being abused", "someone is hurting me",
     "adults touching kids", "inappropriate touching",
     "child trafficking", "child exploitation",
     "child pornography", "csam"],
    [],
    100, false, "child safety",
    "If you or someone you know is being hurt, please reach out for help right now.",
    "Childhelp National Child Abuse Hotline: 1-800-422-4453 (24/7). If you are in immediate danger, call 911."⟩,
  ⟨"emergency",
    ["i need help now", "someone is trying to hurt me",
     "i\x27m in danger", "im in danger",
     "call the police for me", "i need the police",
     "emergency help", "please help me",
     "i don\x27t feel safe", "i dont feel safe",
     "someone is following me"],
    [],
    100, false, "emergency",
    "If you are in danger or need emergency help:",
    "Call 911 (or your local emergency number) immediately. 988 Suicide & Crisis Lifeline: Call or text 988. Crisis Text Line: Text HOME to 741741."⟩,
  ⟨"gaming_distraction",
    ["unblocked games", "unblocked game", "games unblocked",
     "school games", "games for school", "games at school",
     "classroom games", "play at school", "play in school",
     "games not blocked", "not blocked games",
     "games that aren\x27t blocked", "games that are not blocked",
     "cool math games", "coolmath", "cool math",
     "poki", "kizi", "y8", "miniclip", "armor games",
     "crazy games", "crazygames",
     "io games", "slither.io", "agar.io", "krunker.io",
     "1v1.lol", "shell shockers", "slope game", "slope unblocked",
     "retro bowl", "retro bowl unblocked",
     "fnf unblocked", "friday night funkin unblocked",
     "run 3 unblocked", "happy wheels unblocked",
     "subway surfers unblocked", "among us unblocked",
     "minecraft unblocked", "roblox unblocked",
     "fortnite unblocked", "geometry dash unblocked",
     "snake game", "google snake", "dinosaur game",
     "game sites", "gaming sites", "free game sites",
     "flash games", "browser games",
     "tyrone unblocked", "tyrone\x27s unblocked",
     "ubg365", "ubg100", "ubg77",
     "66ez", "76 unblocked", "77 unblocked",
     "scratch games", "html5 games"],
    ["\\bunblocked\\b.\x7b0,20\x7d\\bgames?\\b",
     "\\bgames?\\b.\x7b0,20\x7d\\bunblocked\\b",
     "\\b(?:play|game|gaming)\\b.\x7b0,15\x7d\\b(?:school|class|blocked)\\b"],
    65, true, "gaming distraction",
    "Some results were filtered because they relate to: gaming or distraction sites.",
    ""⟩,
  ⟨"social_media",
    ["tiktok unblocked", "instagram unblocked",
     "snapchat unblocked", "discord unblocked",
     "twitter unblocked", "facebook unblocked",
     "youtube unblocked", "reddit unblocked",
     "snapchat web", "tiktok web",
     "social media at school", "access social media",
     "unblocked social media", "social media unblocked"],
    ["\\b(?:tiktok|snapchat|instagram|discord|twitter|facebook|youtube|reddit)\\b.\x7b0,15\x7d\\bunblocked\\b",
     "\\bunblocked\\b.\x7b0,15\x7d\\b(?:tiktok|snapchat|instagram|discord|twitter|facebook|youtube|reddit)\\b"],
    60, true, "social media bypass",
    "Some results were filtered because they relate to: social media bypass tools.",
    ""⟩,
  ⟨"cheating_academic",
    ["buy essay", "buy essays", "essay writing service",
     "pay someone to write", "do my homework",
     "homework answers", "test answers",
     "cheat on test", "cheat on exam",
     "cheating methods", "how to cheat on a test",
     "answer key", "exam answers",
     "coursehero", "course hero", "chegg answers",
     "photomath answers", "brainly answers",
     "copy homework", "plagiarism tool",
     "essay mill", "paper mill", "ghost writer academic",
     "write my paper", "write my essay",
     "take my exam", "take my test"],
    [],
    55, true, "academic dishonesty",
    "Some results were filtered because they relate to: academic dishonesty.",
    ""⟩,
  ⟨"piracy",
    ["free movies online", "watch movies free",
     "free streaming", "123movies", "putlocker",
     "fmovies", "soap2day", "solarmovie", "yesmovies",
     "123 movies", "movie streaming free",
     "watch free online", "free tv shows online",
     "pirate bay", "thepiratebay", "torrent download",
     "torrent site", "torrent sites", "kickass torrents",
     "rarbg", "1337x", "yts", "eztv",
     "free music download", "mp3 download free",
     "free ebook download", "libgen", "z-library",
     "cracked software", "cracked games",
     "free download full version", "keygen",
     "serial key", "activation crack",
     "watch anime free", "free anime streaming",
     "gogoanime", "9anime", "kissanime"],
    [],
    60, false, "piracy",
    "Some results were filtered because they relate to: piracy or copyright infringement.",
    ""⟩,
  ⟨"vpn_circumvention",
    ["free vpn", "vpn for school", "vpn unblocked",
     "school vpn", "vpn to bypass", "vpn bypass",
     "vpn chrome extension", "vpn extension free",
     "hide browsing", "hide search history",
     "anonymous browsing", "private browsing bypass",
     "tor browser download", "tor download",
     "dns bypass", "dns over https bypass",
     "change dns school", "dns changer"],
    [],
    60, true, "filter circumvention",
    "Some results were filtered because they relate to: network filter circumvention.",
    ""⟩]

def EDUCATIONAL_SCORE_REDUCTION : Int := 30

/-- `_NEVER_REDUCE`. -/
def NEVER_REDUCE : List String :=
  ["self_harm", "adult_content", "sexual_assault", "child_abuse",
   "proxies", "illegal_activities", "emergency"]

/-! ### Rule compiler (`_compile_rules` / `_BLOCK_RULES`) -/

/-- One compiled rule: matcher plus metadata, as in the `_BLOCK_RULES`
tuples `(pattern, risk, label, message, hotline, cat)`. -/
structure Rule where
  test : String → Bool
  risk : Int
  label : String
  message : String
  hotline : String
  cat : String

/-- The compiled rule of one literal term (boundary-delimited matcher). -/
def termRule (c : Category) (t : String) : Rule :=
  ⟨fun q => termSearch t.data q.data, c.risk, c.label, c.message, c.hotline, c.id⟩

/-- The compiled rule of one raw "patterns" entry; its semantics is the
parameter `pm`. -/
def patRule (pm : String → String → Bool) (c : Category) (p : String) : Rule :=
  ⟨fun q => pm p q, c.risk, c.label, c.message, c.hotline, c.id⟩

/-- Rules of one category: terms first, then patterns, in declaration order. -/
def catRules (pm : String → String → Bool) (c : Category) : List Rule :=
  c.terms.map (termRule c) ++ c.pats.map (patRule pm c)

/-- `_BLOCK_RULES`: categories in declaration order. -/
def BLOCK_RULES (pm : String → String → Bool) : List Rule :=
  CATEGORIES.flatMap (catRules pm)

/-! ### Query risk scorer (`_score_query`) -/

/-- The verdict tuple `(risk, label, message, hotline, cat)`. -/
structure Verdict where
  risk : Int
  label : String
  message : String
  hotline : String
  cat : String
deriving DecidableEq, Repr

def emptyVerdict : Verdict := ⟨0, "", "", "", ""⟩

/-- The verdict carrying a rule's metadata. -/
def mkV (r : Rule) : Verdict := ⟨r.risk, r.label, r.message, r.hotline, r.cat⟩

/-- One iteration of the scan: `if pattern.search(query_lower) and risk > top_risk`. -/
def step (q : String) (v : Verdict) (r : Rule) : Verdict :=
  if r.test q = true ∧ v.risk < r.risk then mkV r else v

/-- The scan over the compiled rule sequence. -/
def scoreLoop (rules : List Rule) (q : String) : Verdict :=
  rules.foldl (step q) emptyVerdict

/-- `_score_query`: scan the compiled rules over the lowercased query, then
apply the educational mitigation unless the winning category never reduces. -/
def score_query (pm : String → String → Bool) (q : String) : Verdict :=
  if (scoreLoop (BLOCK_RULES pm) (pyLower q)).risk = 0 then emptyVerdict
  else if (scoreLoop (BLOCK_RULES pm) (pyLower q)).cat ∉ NEVER_REDUCE ∧
      has_educational_context (pyLower q) = true then
    { scoreLoop (BLOCK_RULES pm) (pyLower q) with
      risk := max 0 ((scoreLoop (BLOCK_RULES pm) (pyLower q)).risk - EDUCATIONAL_SCORE_REDUCTION) }
  else scoreLoop (BLOCK_RULES pm) (pyLower q)

/-! ### Host extraction and domain blocklist lookup -/

/-- Index of the first occurrence of `pat` in `l` (Python `str.find` /
`in` / `split(pat, 1)`). -/
def findSub (pat l : List Char) : Option Nat :=
  (List.range (l.length + 1)).find? fun i => (l.drop i).take pat.length == pat

/-- `_extract_host`: `""` without a `"://"`, else the part after the first
`"://"`, cut at the first `/`, cut at the first `:`, lowercased. -/
def extract_host (url : String) : String :=
  match findSub "://".data url.data with
  | none => ""
  | some i =>
    String.mk ((((url.data.drop (i + 3)).takeWhile (fun c => !(c == '/'))).takeWhile
      (fun c => !(c == ':'))).map Char.toLower)

/-- Python `host.split(".")` (single-character separator). -/
def splitOnDot : List Char → List (List Char)
  | [] => [[]]
  | c :: rest =>
    if c = '.' then [] :: splitOnDot rest
    else
      match splitOnDot rest with
      | h :: t => (c :: h) :: t
      | [] => [[c]]

/-- Python `".".join(parts)`. -/
def joinDots : List (List Char) → List Char
  | [] => []
  | [x] => x
  | x :: y :: ys => x ++ '.' :: joinDots (y :: ys)

/-- `_is_domain_blocked` with the module-global `_blocked_domains` passed
explicitly. -/
def is_domain_blocked (blocked : List String) (host : String) : Bool :=
  if host = "" then false
  else
    let parts := splitOnDot host.data
    (List.range (parts.length - 1)).any fun i =>
      blocked.contains (String.mk (joinDots (parts.drop i)))

/-! ### Unsafe URL tokens (`_UNSAFE_URL_TOKENS`)

The regex is a disjunction of literal tokens, a few with an optional
`[-_ ]` between two halves; searched case-insensitively in the lowercased
URL, it is plain substring containment of some alternative. -/

def containsSub (pat l : List Char) : Bool := (findSub pat l).isSome

/-- The four expansions of `a[-_ ]?b`. -/
def sepOpt (a b : String) : List String := [a ++ b, a ++ "-" ++ b, a ++ "_" ++ b, a ++ " " ++ b]

def UNSAFE_TOKENS : List String :=
  ["porn", "xxx", "nsfw", "nude", "naked", "hentai", "gore", "snuff", "fetish", "escort",
   "sexy", "boob", "tit", "camgirl"] ++ sepOpt "webcam" "girl" ++ sepOpt "strip" "club" ++
  ["topless", "shirtless", "darknet"] ++ sepOpt "dark" "web" ++
  ["torrent", "warez"] ++ sepOpt "crack" "download" ++
  sepOpt "proxy" "unblocker" ++ sepOpt "unblock" "site" ++ sepOpt "bypass" "filter" ++
  ["masturbat", "blowjob", "handjob", "orgasm", "vibrator", "dildo", "lingerie", "thong"]

def unsafeUrl (s : String) : Bool := UNSAFE_TOKENS.any fun t => containsSub t.data s.data

/-! ### Result suppression (`SXNGPlugin.on_result`) -/

/-- A result dict restricted to the six keys read by `on_result`; `none`
models an absent key. -/
structure ResultFields where
  title : Option String
  url : Option String
  content : Option String
  parsed_url : Option String
  img_src : Option String
  thumbnail : Option String
deriving DecidableEq, Repr

/-- `result.get("url", "") or ""`. -/
def fieldVal : Option String → String
  | none => ""
  | some s => s

/-- The non-empty fields, lowercased, in the fixed key order. -/
def partsOf (res : ResultFields) : List String :=
  [res.title, res.url, res.content, res.parsed_url, res.img_src, res.thumbnail].filterMap
    fun v =>
      match v with
      | some s => if s = "" then none else some (pyLower s)
      | none => none

/-- `" ".join(text_parts)`. -/
def searchableOf (res : ResultFields) : String := String.intercalate " " (partsOf res)

/-- `threshold = 0 if risk >= 60 else (risk if risk >= 30 else 80)`. -/
def threshold (risk : Int) : Int :=
  if 60 ≤ risk then 0 else if 30 ≤ risk then risk else 80

/-- `on_result`, with `flask.g.risk_score` (`risk`) and the blocked-domain
set passed explicitly; `true` keeps the result. -/
def on_result (pm : String → String → Bool) (blocked : List String) (risk : Int)
    (res : ResultFields) : Bool :=
  if is_domain_blocked blocked (extract_host (fieldVal res.url)) then false
  else if unsafeUrl (pyLower (fieldVal res.url)) then false
  else if risk ≤ 0 then true
  else if searchableOf res = "" then true
  else if (BLOCK_RULES pm).any
      (fun r => decide (threshold risk ≤ r.risk) && r.test (searchableOf res)) then false
  else true

/-! ### `pre_search` / `post_search` -/

/-- What `pre_search` leaves behind: its return value, `flask.g.risk_score`
(0 when never set), and `request.blocked_message` / `blocked_hotline`
(absent / `""` when not blocked). -/
structure PreSearchOut where
  proceed : Bool
  riskScore : Int
  blockedMessage : Option String
  blockedHotline : String
deriving DecidableEq, Repr

def pre_search (pm : String → String → Bool) (query : String) : PreSearchOut :=
  if pyStrip query = "" then ⟨true, 0, none, ""⟩
  else if 80 ≤ (score_query pm (pyStrip query)).risk then
    ⟨false, (score_query pm (pyStrip query)).risk,
      some (score_query pm (pyStrip query)).message, (score_query pm (pyStrip query)).hotline⟩
  else ⟨true, (score_query pm (pyStrip query)).risk, none, ""⟩

/-- `post_search`: the list of `Answer` texts. -/
def post_search (st : PreSearchOut) : List String :=
  match st.blockedMessage with
  | none => []
  | some m =>
    if m = "" then []
    else if st.blockedHotline = "" then [m]
    else [m ++ " " ++ st.blockedHotline]

/-! ### Domain blocklist loader (`_fetch_single_list` / `_load_all_blocklists`)

The loader's I/O and threading are modelled by passing each source's fetch
outcome as data: `none` is a failed or timed-out fetch (which contributes
an empty set), `some lines` the fetched lines.  The fan-out/fan-in merge
and the single publication of the merged set become one state transition. -/

/-- Line filtering of `_fetch_single_list`: strip + lowercase, drop empty
lines and `#`/`!` comments. -/
def parseLine (line : String) : Option String :=
  let l := pyLower (pyStrip line)
  if l ≠ "" ∧ ¬("#".isPrefixOf l) ∧ ¬("!".isPrefixOf l) then some l else none

/-- `_fetch_single_list`: the per-source domain set (empty on failure). -/
def fetch_single_list (outcome : Option (List String)) : List String :=
  match outcome with
  | none => []
  | some lines => lines.filterMap parseLine

/-- The module state `(_blocked_domains, _blocklist_ready)`. -/
structure BlocklistState where
  blocked : List String
  ready : Bool

/-- State at process start: empty set, readiness not signalled. -/
def initialBlocklistState : BlocklistState := ⟨[], false⟩

/-- `_load_all_blocklists`: merge every source's set, publish the merged
set as a single bulk replacement and signal readiness. -/
def load_all_blocklists (outcomes : List (Option (List String)))
    (_st : BlocklistState) : BlocklistState :=
  ⟨(outcomes.map fetch_single_list).flatten, true⟩

/-! ### Helper lemmas about the scan -/

lemma step_eq_self_of_le {q : String} {v : Verdict} {r : Rule}
    (h : r.test q = true → r.risk ≤ v.risk) : step q v r = v := by
  unfold step
  split
  · next hc => exact absurd (h hc.1) (not_le.mpr hc.2)
  · rfl

lemma foldl_step_const {q : String} :
    ∀ (l : List Rule) (v : Verdict), (∀ r ∈ l, r.test q = true → r.risk ≤ v.risk) →
      l.foldl (step q) v = v := by
  intro l
  induction l with
  | nil => intro v _; rfl
  | cons a l ih =>
    intro v h
    rw [List.foldl_cons, step_eq_self_of_le (h a (List.mem_cons_self a l))]
    exact ih v fun r hr => h r (List.mem_cons_of_mem _ hr)

/-- The scan selects the first rule, in compiled order, that matches and
has the maximal risk weight `R` among matching rules. -/
lemma foldl_step_first_max {q : String} :
    ∀ (l : List Rule) (v : Verdict) (R : Int) (rs : Rule), v.risk < R →
      (∀ r ∈ l, r.test q = true → r.risk ≤ R) →
      l.find? (fun r => r.test q && r.risk == R) = some rs →
      l.foldl (step q) v = mkV rs := by
  intro l
  induction l with
  | nil => intro v R rs _ _ hf; simp [List.find?] at hf
  | cons a l ih =>
    intro v R rs hv hb hf
    rw [List.foldl_cons]
    by_cases hp : (a.test q && a.risk == R) = true
    · rw [List.find?_cons_of_pos (p := fun r => r.test q && r.risk == R) l hp] at hf
      obtain ⟨ht, hr⟩ := (Bool.and_eq_true _ _).mp hp
      have hra : a.risk = R := by simpa using hr
      obtain rfl : a = rs := by simpa using hf
      have hstep : step q v a = mkV a := by
        unfold step
        rw [if_pos ⟨ht, by rw [hra]; exact hv⟩]
      rw [hstep]
      exact foldl_step_const l (mkV a) fun r hrl hrt => by
        have := hb r (List.mem_cons_of_mem _ hrl) hrt
        simpa [mkV, hra] using this
    · rw [List.find?_cons_of_neg (p := fun r => r.test q && r.risk == R) l (by simpa using hp)] at hf
      have hst : (step q v a).risk < R := by
        unfold step
        split
        · next hc =>
          have hle := hb a (List.mem_cons_self a l) hc.1
          have hne : a.risk ≠ R := by
            intro he
            exact hp (by simp [hc.1, he])
          simp only [mkV]
          omega
        · exact hv
      exact ih (step q v a) R rs hst (fun r hr => hb r (List.mem_cons_of_mem _ hr)) hf

/-- The scan's result is the initial verdict or carries some rule's metadata. -/
lemma foldl_step_image {q : String} :
    ∀ (l : List Rule) (v : Verdict), l.foldl (step q) v = v ∨ ∃ r ∈ l, l.foldl (step q) v = mkV r := by
  intro l
  induction l with
  | nil => intro v; exact Or.inl rfl
  | cons a l ih =>
    intro v
    rw [List.foldl_cons]
    rcases ih (step q v a) with h | ⟨r, hr, h⟩
    · rw [h]
      unfold step
      split
      · exact Or.inr ⟨a, List.mem_cons_self a l, rfl⟩
      · exact Or.inl rfl
    · exact Or.inr ⟨r, List.mem_cons_of_mem _ hr, h⟩

/-- Every compiled rule arises from a category: a term rule of one of its
literal terms, or a pattern rule of one of its raw patterns. -/
lemma mem_BLOCK_RULES {pm : String → String → Bool} {r : Rule} :
    r ∈ BLOCK_RULES pm ↔
      ∃ c ∈ CATEGORIES, (∃ t ∈ c.terms, r = termRule c t) ∨ ∃ p ∈ c.pats, r = patRule pm c p := by
  unfold BLOCK_RULES catRules
  simp only [List.mem_flatMap, List.mem_append, List.mem_map]
  constructor
  · rintro ⟨c, hc, ⟨t, ht, rfl⟩ | ⟨p, hp, rfl⟩⟩
    · exact ⟨c, hc, Or.inl ⟨t, ht, rfl⟩⟩
    · exact ⟨c, hc, Or.inr ⟨p, hp, rfl⟩⟩
  · rintro ⟨c, hc, ⟨t, ht, rfl⟩ | ⟨p, hp, rfl⟩⟩
    · exact ⟨c, hc, Or.inl ⟨t, ht, rfl⟩⟩
    · exact ⟨c, hc, Or.inr ⟨p, hp, rfl⟩⟩

lemma cat_messages_nonempty : ∀ c ∈ CATEGORIES, c.message ≠ "" := by decide

lemma rule_message_nonempty {pm : String → String → Bool} {r : Rule}
    (h : r ∈ BLOCK_RULES pm) : r.message ≠ "" := by
  rcases mem_BLOCK_RULES.mp h with ⟨c, hc, ⟨t, _, rfl⟩ | ⟨p, _, rfl⟩⟩
  · exact cat_messages_nonempty c hc
  · exact cat_messages_nonempty c hc

/-- A verdict produced by `score_query` is the empty verdict or carries
the message of some compiled rule. -/
lemma score_query_message_shape (pm : String → String → Bool) (q : String) :
    score_query pm q = emptyVerdict ∨
      ∃ r ∈ BLOCK_RULES pm, (score_query pm q).message = r.message := by
  unfold score_query scoreLoop
  rcases foldl_step_image (q := pyLower q) (BLOCK_RULES pm) emptyVerdict with h | ⟨r, hr, h⟩
  · rw [h]
    left
    simp [emptyVerdict]
  · rw [h]
    split
    · exact Or.inl rfl
    · split
      · exact Or.inr ⟨r, hr, rfl⟩
      · exact Or.inr ⟨r, hr, rfl⟩

/-! ### Claims -/

/-- An arbitrary concrete pattern-matcher instance (for closed witnesses the
raw-regex rules are irrelevant: no pattern rule is involved). -/
def pm0 : String → String → Bool := fun _ _ => false

/-- The very first compiled rule: the weapons term `"gun"`. -/
def gunRule : Rule := termRule (CATEGORIES[0]!) "gun"

/-- C1: `_score_query` scans the compiled rules in order over the lowercased
query.  If no rule matches, the result is the empty verdict (risk 0, empty
label/message/hotline/category).  If some rule matches and no mitigation
applies, the result is exactly the metadata of the first rule, in compiled
order, that matches and whose risk weight `R` is maximal among matching
rules — an equal-risk later match never overrides an earlier one (the
match found by `find?` wins). -/
theorem claim_C1 (pm : String → String → Bool) (q : String) :
    ((∀ r ∈ BLOCK_RULES pm, r.test (pyLower q) = false) → score_query pm q = emptyVerdict) ∧
    (∀ (R : Int) (rs : Rule), 0 < R →
      (∀ r ∈ BLOCK_RULES pm, r.test (pyLower q) = true → r.risk ≤ R) →
      (BLOCK_RULES pm).find? (fun r => r.test (pyLower q) && r.risk == R) = some rs →
      ¬(rs.cat ∉ NEVER_REDUCE ∧ has_educational_context (pyLower q) = true) →
      score_query pm q = mkV rs) := by
  constructor
  · intro h
    have hloop : scoreLoop (BLOCK_RULES pm) (pyLower q) = emptyVerdict :=
      foldl_step_const _ _ fun r hr ht => absurd ht (by simp [h r hr])
    unfold score_query
    rw [hloop]
    simp [emptyVerdict]
  · intro R rs hR hb hf hnm
    have hrisk : rs.risk = R := by
      have := List.find?_some hf
      simp only [Bool.and_eq_true, beq_iff_eq] at this
      exact this.2
    have hloop : scoreLoop (BLOCK_RULES pm) (pyLower q) = mkV rs :=
      foldl_step_first_max _ emptyVerdict R rs (by simpa [emptyVerdict] using hR) hb hf
    unfold score_query
    rw [hloop]
    rw [if_neg (by simp only [mkV]; omega)]
    rw [if_neg (by simpa [mkV] using hnm)]

/-- Witness for C1 at concrete inputs: `"gun yts"` matches exactly a
risk-90 weapons rule and a risk-60 piracy rule, and the verdict is the
risk-90 rule's; `"cute puppies"` matches nothing and gets the empty
verdict. -/
theorem claim_C1_witness :
    (0 : Int) < 90 ∧
    (∀ r ∈ BLOCK_RULES pm0, r.test (pyLower "gun yts") = true → r.risk ≤ 90) ∧
    (BLOCK_RULES pm0).find? (fun r => r.test (pyLower "gun yts") && r.risk == 90) = some gunRule ∧
    ¬(gunRule.cat ∉ NEVER_REDUCE ∧ has_educational_context (pyLower "gun yts") = true) ∧
    score_query pm0 "gun yts" = mkV gunRule ∧
    mkV gunRule =
      ⟨90, "weapons", "This search was blocked because it relates to: weapons.", "", "weapons"⟩ ∧
    (∀ r ∈ BLOCK_RULES pm0, r.test (pyLower "cute puppies") = false) ∧
    score_query pm0 "cute puppies" = emptyVerdict := by
  have hb : ∀ r ∈ BLOCK_RULES pm0, r.test (pyLower "gun yts") = true → r.risk ≤ 90 := by decide
  have hf : (BLOCK_RULES pm0).find? (fun r => r.test (pyLower "gun yts") && r.risk == 90) =
      some gunRule := by rfl
  have hnm : ¬(gunRule.cat ∉ NEVER_REDUCE ∧ has_educational_context (pyLower "gun yts") = true) := by
    decide
  have hno : ∀ r ∈ BLOCK_RULES pm0, r.test (pyLower "cute puppies") = false := by decide
  exact ⟨by decide, hb, hf, hnm,
    (claim_C1 pm0 "gun yts").2 90 gunRule (by decide) hb hf hnm, by rfl,
    hno, (claim_C1 pm0 "cute puppies").1 hno⟩

/-- No category with risk weight above 90 has a literal term matching
`"history of guns in america"`. -/
lemma high_risk_terms_miss_history :
    ∀ c ∈ CATEGORIES, 90 < c.risk →
      ∀ t ∈ c.terms, termSearch t.data "history of guns in america".data = false := by decide

/-- Every category that has raw regex patterns has risk weight at most 90. -/
lemma pattern_cats_at_most_90 : ∀ c ∈ CATEGORIES, c.pats ≠ [] → c.risk ≤ 90 := by decide

/-- The spec scenario, for every pattern-matcher semantics `pm`: the query
`"history of guns in america"` wins the risk-90 weapons category and the
educational mitigation brings the risk to 60. -/
lemma scenario_history_of_guns (pm : String → String → Bool) :
    score_query pm "history of guns in america" =
      ⟨60, "weapons", "This search was blocked because it relates to: weapons.", "", "weapons"⟩ := by
  have hb : ∀ r ∈ BLOCK_RULES pm,
      r.test (pyLower "history of guns in america") = true → r.risk ≤ 90 := by
    intro r hr ht
    rcases mem_BLOCK_RULES.mp hr with ⟨c, hc, ⟨t, htm, rfl⟩ | ⟨p, hpm, rfl⟩⟩
    · by_contra hgt
      have h90 : 90 < c.risk := by simpa [termRule] using hgt
      have := high_risk_terms_miss_history c hc h90 t htm
      rw [show pyLower "history of guns in america" = "history of guns in america" from rfl] at ht
      simp only [termRule] at ht
      rw [ht] at this
      exact absurd this (by simp)
    · have : c.risk ≤ 90 := pattern_cats_at_most_90 c hc
        (by intro he; rw [he] at hpm; simp at hpm)
      simpa [patRule] using this
  have hf : (BLOCK_RULES pm).find?
      (fun r => r.test (pyLower "history of guns in america") && r.risk == 90) = some gunRule := by
    rfl
  have hloop : scoreLoop (BLOCK_RULES pm) (pyLower "history of guns in america") = mkV gunRule :=
    foldl_step_first_max _ emptyVerdict 90 gunRule (by simp [emptyVerdict]) hb hf
  unfold score_query
  rw [hloop]
  rw [if_neg (by decide)]
  rw [if_pos ⟨by decide, by decide⟩]
  decide

/-- C2: when the query's lowercased form matches an educational-context
pattern and the winning rule's category is outside the fixed never-reduce
set, `_score_query` returns risk `max 0 (base − 30)` with label, message,
hotline and category unchanged; membership in the never-reduce set is the
only exemption (the winning rule's risk decides, never the `reducible`
flag), so a never-reduce winner keeps its unmitigated risk under the same
educational phrasing, and `"history of guns in america"` (weapons, base
risk 90) yields mitigated risk 60. -/
theorem claim_C2 (pm : String → String → Bool) (q : String) (R : Int) (rs : Rule)
    (hR : 0 < R)
    (hb : ∀ r ∈ BLOCK_RULES pm, r.test (pyLower q) = true → r.risk ≤ R)
    (hf : (BLOCK_RULES pm).find? (fun r => r.test (pyLower q) && r.risk == R) = some rs)
    (hedu : has_educational_context (pyLower q) = true) :
    (rs.cat ∉ NEVER_REDUCE →
      score_query pm q =
        ⟨max 0 (rs.risk - EDUCATIONAL_SCORE_REDUCTION), rs.label, rs.message, rs.hotline, rs.cat⟩) ∧
    (rs.cat ∈ NEVER_REDUCE → score_query pm q = mkV rs) ∧
    score_query pm "history of guns in america" =
      ⟨60, "weapons", "This search was blocked because it relates to: weapons.", "", "weapons"⟩ := by
  have hrisk : rs.risk = R := by
    have := List.find?_some hf
    simp only [Bool.and_eq_true, beq_iff_eq] at this
    exact this.2
  have hloop : scoreLoop (BLOCK_RULES pm) (pyLower q) = mkV rs :=
    foldl_step_first_max _ emptyVerdict R rs (by simpa [emptyVerdict] using hR) hb hf
  refine ⟨?mit, ?keep, scenario_history_of_guns pm⟩
  · intro hcat
    unfold score_query
    rw [hloop]
    rw [if_neg (by simp only [mkV]; omega)]
    rw [if_pos ⟨by simpa [mkV] using hcat, hedu⟩]
    simp [mkV]
  · intro hcat
    unfold score_query
    rw [hloop]
    rw [if_neg (by simp only [mkV]; omega)]
    rw [if_neg (by simp [mkV, hcat])]

/-- The first compiled rule matching `"what is domestic violence"` at the
maximal matching risk 90 (the domestic-violence term rule). -/
def dvRule : Rule := termRule (CATEGORIES[11]!) "domestic violence"

/-- The first compiled rule matching `"what is suicide"` at the maximal
matching risk 95 (the self-harm term rule `"suicide"`). -/
def suicideRule : Rule := termRule (CATEGORIES[3]!) "suicide"

/-- Witness for C2: `"what is domestic violence"` (reducible-irrelevant,
not never-reduce) is mitigated 90 → 60; `"what is suicide"` wins the
never-reduce self-harm category and keeps risk 95 despite the same
`"what is"` educational phrasing. -/
theorem claim_C2_witness :
    (0 : Int) < 90 ∧
    (∀ r ∈ BLOCK_RULES pm0, r.test (pyLower "what is domestic violence") = true → r.risk ≤ 90) ∧
    (BLOCK_RULES pm0).find?
      (fun r => r.test (pyLower "what is domestic violence") && r.risk == 90) = some dvRule ∧
    has_educational_context (pyLower "what is domestic violence") = true ∧
    dvRule.cat ∉ NEVER_REDUCE ∧
    score_query pm0 "what is domestic violence" =
      ⟨max 0 (dvRule.risk - EDUCATIONAL_SCORE_REDUCTION), dvRule.label, dvRule.message,
        dvRule.hotline, dvRule.cat⟩ ∧
    (0 : Int) < 95 ∧
    (∀ r ∈ BLOCK_RULES pm0, r.test (pyLower "what is suicide") = true → r.risk ≤ 95) ∧
    (BLOCK_RULES pm0).find?
      (fun r => r.test (pyLower "what is suicide") && r.risk == 95) = some suicideRule ∧
    has_educational_context (pyLower "what is suicide") = true ∧
    suicideRule.cat ∈ NEVER_REDUCE ∧
    score_query pm0 "what is suicide" = mkV suicideRule := by
  have hb1 : ∀ r ∈ BLOCK_RULES pm0,
      r.test (pyLower "what is domestic violence") = true → r.risk ≤ 90 := by decide
  have hf1 : (BLOCK_RULES pm0).find?
      (fun r => r.test (pyLower "what is domestic violence") && r.risk == 90) = some dvRule := by
    rfl
  have he1 : has_educational_context (pyLower "what is domestic violence") = true := by decide
  have hb2 : ∀ r ∈ BLOCK_RULES pm0, r.test (pyLower "what is suicide") = true → r.risk ≤ 95 := by
    decide
  have hf2 : (BLOCK_RULES pm0).find?
      (fun r => r.test (pyLower "what is suicide") && r.risk == 95) = some suicideRule := by rfl
  have he2 : has_educational_context (pyLower "what is suicide") = true := by decide
  exact ⟨by decide, hb1, hf1, he1, by decide,
    (claim_C2 pm0 "what is domestic violence" 90 dvRule (by decide) hb1 hf1 he1).1 (by decide),
    by decide, hb2, hf2, he2, by decide,
    ((claim_C2 pm0 "what is suicide" 95 suicideRule (by decide) hb2 hf2 he2).2).1 (by decide)⟩

lemma score_query_message_nonempty (pm : String → String → Bool) (q : String)
    (h : 80 ≤ (score_query pm q).risk) : (score_query pm q).message ≠ "" := by
  rcases score_query_message_shape pm q with he | ⟨r, hr, hm⟩
  · rw [he] at h
    simp only [emptyVerdict] at h
    omega
  · rw [hm]
    exact rule_message_nonempty hr

/-- C3: for every query that is non-empty after stripping, `pre_search`
returns `false` (the search is not executed) iff the verdict risk is at
least 80; and in that case `post_search` returns a single `Answer` whose
text is the verdict's message, followed by the hotline exactly when the
hotline is non-empty. -/
theorem claim_C3 (pm : String → String → Bool) (q : String) (hq : pyStrip q ≠ "") :
    ((pre_search pm q).proceed = false ↔ 80 ≤ (score_query pm (pyStrip q)).risk) ∧
    (80 ≤ (score_query pm (pyStrip q)).risk →
      post_search (pre_search pm q) =
        [if (score_query pm (pyStrip q)).hotline = "" then (score_query pm (pyStrip q)).message
         else (score_query pm (pyStrip q)).message ++ " " ++
           (score_query pm (pyStrip q)).hotline]) := by
  unfold pre_search
  rw [if_neg hq]
  by_cases h80 : 80 ≤ (score_query pm (pyStrip q)).risk
  · rw [if_pos h80]
    refine ⟨by simpa using h80, fun _ => ?_⟩
    unfold post_search
    simp only
    rw [if_neg (score_query_message_nonempty pm (pyStrip q) h80)]
    split <;> rfl
  · rw [if_neg h80]
    exact ⟨by simpa using h80, fun hc => absurd hc h80⟩

/-- Witness for C3: `"gun"` (risk 90, no hotline) is hard-blocked and the
weapons message is the sole answer; `"cocaine"` (risk 90, with hotline)
yields message plus hotline; the scenario query `"gun shop near me"` is
blocked too. -/
theorem claim_C3_witness :
    pyStrip "gun" ≠ "" ∧
    ((pre_search pm0 "gun").proceed = false ↔ 80 ≤ (score_query pm0 (pyStrip "gun")).risk) ∧
    (80 ≤ (score_query pm0 (pyStrip "gun")).risk →
      post_search (pre_search pm0 "gun") =
        [if (score_query pm0 (pyStrip "gun")).hotline = "" then
            (score_query pm0 (pyStrip "gun")).message
         else (score_query pm0 (pyStrip "gun")).message ++ " " ++
           (score_query pm0 (pyStrip "gun")).hotline]) ∧
    (pre_search pm0 "gun").proceed = false ∧
    post_search (pre_search pm0 "gun") =
      ["This search was blocked because it relates to: weapons."] ∧
    post_search (pre_search pm0 "cocaine") =
      ["This search was blocked because it relates to: drugs or controlled substances. " ++
        "If you or someone you know is struggling with substance use, contact the SAMHSA " ++
        "National Helpline: 1-800-662-4357 (free, confidential, 24/7)."] ∧
    (pre_search pm0 "gun shop near me").proceed = false := by
  refine ⟨by decide, (claim_C3 pm0 "gun" (by decide)).1, (claim_C3 pm0 "gun" (by decide)).2,
    by decide, by decide, by decide, by decide⟩

/-- C4: for a result that passes the domain-blocklist and unsafe-token
steps, whose searchable text matches a compiled rule of weight `W` and no
rule of higher weight, and a query verdict risk `R > 0`, the result is
suppressed iff `threshold R ≤ W`, where `threshold` is 0 for `R ≥ 60`,
`R` for `30 ≤ R < 60`, and 80 for `R < 30`. -/
theorem claim_C4 (pm : String → String → Bool) (blocked : List String) (R : Int)
    (res : ResultFields) (W : Int)
    (h1 : is_domain_blocked blocked (extract_host (fieldVal res.url)) = false)
    (h2 : unsafeUrl (pyLower (fieldVal res.url)) = false)
    (hR : 0 < R)
    (hs : searchableOf res ≠ "")
    (hex : ∃ r ∈ BLOCK_RULES pm, r.test (searchableOf res) = true ∧ r.risk = W)
    (hmax : ∀ r ∈ BLOCK_RULES pm, r.test (searchableOf res) = true → r.risk ≤ W) :
    on_result pm blocked R res = false ↔ threshold R ≤ W := by
  unfold on_result
  rw [if_neg (by simp [h1]), if_neg (by simp [h2]), if_neg (by omega), if_neg (by simp [hs])]
  by_cases hany : (BLOCK_RULES pm).any
      (fun r => decide (threshold R ≤ r.risk) && r.test (searchableOf res)) = true
  · rw [if_pos hany]
    simp only [List.any_eq_true, Bool.and_eq_true, decide_eq_true_eq] at hany
    obtain ⟨r, hr, hth, ht⟩ := hany
    exact iff_of_true rfl (le_trans hth (hmax r hr ht))
  · rw [if_neg hany]
    refine iff_of_false (by simp) fun hth => ?_
    obtain ⟨r, hr, ht, hW⟩ := hex
    exact hany (by
      simp only [List.any_eq_true, Bool.and_eq_true, decide_eq_true_eq]
      exact ⟨r, hr, by omega, ht⟩)

/-- Witness for C4: a result whose only text is `"yts"` (a risk-60 piracy
term, no higher-weight match).  With verdict risk 45 the threshold is 45 ≤
60 and the result is suppressed; with verdict risk 25 the threshold is 80
> 60 and it is kept. -/
theorem claim_C4_witness :
    is_domain_blocked [] (extract_host (fieldVal (⟨some "yts", none, none, none, none,
      none⟩ : ResultFields).url)) = false ∧
    unsafeUrl (pyLower (fieldVal (⟨some "yts", none, none, none, none,
      none⟩ : ResultFields).url)) = false ∧
    (0 : Int) < 45 ∧
    searchableOf ⟨some "yts", none, none, none, none, none⟩ ≠ "" ∧
    (∃ r ∈ BLOCK_RULES pm0,
      r.test (searchableOf ⟨some "yts", none, none, none, none, none⟩) = true ∧ r.risk = 60) ∧
    (∀ r ∈ BLOCK_RULES pm0,
      r.test (searchableOf ⟨some "yts", none, none, none, none, none⟩) = true → r.risk ≤ 60) ∧
    (on_result pm0 [] 45 ⟨some "yts", none, none, none, none, none⟩ = false ↔
      threshold 45 ≤ 60) ∧
    (on_result pm0 [] 25 ⟨some "yts", none, none, none, none, none⟩ = false ↔
      threshold 25 ≤ 60) ∧
    threshold 45 = 45 ∧
    threshold 25 = 80 ∧
    on_result pm0 [] 45 ⟨some "yts", none, none, none, none, none⟩ = false ∧
    on_result pm0 [] 25 ⟨some "yts", none, none, none, none, none⟩ = true := by
  have hex : ∃ r ∈ BLOCK_RULES pm0,
      r.test (searchableOf ⟨some "yts", none, none, none, none, none⟩) = true ∧ r.risk = 60 := by
    decide
  have hmax : ∀ r ∈ BLOCK_RULES pm0,
      r.test (searchableOf ⟨some "yts", none, none, none, none, none⟩) = true → r.risk ≤ 60 := by
    decide
  exact ⟨by decide, by decide, by decide, by decide, hex, hmax,
    claim_C4 pm0 [] 45 ⟨some "yts", none, none, none, none, none⟩ 60 (by decide) (by decide)
      (by decide) (by decide) hex hmax,
    claim_C4 pm0 [] 25 ⟨some "yts", none, none, none, none, none⟩ 60 (by decide) (by decide)
      (by decide) (by decide) hex hmax,
    by decide, by decide, by decide, by decide⟩

/-- C5: `on_result`'s checks run in a fixed order and the first true check
suppresses: a domain-blocked host or an unsafe-token URL is suppressed for
every verdict risk (including 0); if neither holds and the verdict risk is
0, the result is always kept — the rule scan never runs. -/
theorem claim_C5 (pm : String → String → Bool) (blocked : List String) (risk : Int)
    (res : ResultFields) :
    (is_domain_blocked blocked (extract_host (fieldVal res.url)) = true ∨
        unsafeUrl (pyLower (fieldVal res.url)) = true →
      on_result pm blocked risk res = false) ∧
    (is_domain_blocked blocked (extract_host (fieldVal res.url)) = false →
      unsafeUrl (pyLower (fieldVal res.url)) = false →
      risk = 0 → on_result pm blocked risk res = true) := by
  constructor
  · rintro (h | h)
    · unfold on_result
      rw [if_pos (by simp [h])]
    · unfold on_result
      by_cases hd : is_domain_blocked blocked (extract_host (fieldVal res.url)) = true
      · rw [if_pos (by simp [hd])]
      · rw [if_neg hd, if_pos (by simp [h])]
  · intro hd hu hr
    unfold on_result
    rw [if_neg (by simp [hd]), if_neg (by simp [hu]), if_pos (by omega)]

/-- Witness for C5: a result on a blocklisted host and one with an unsafe
URL token are suppressed at verdict risk 0; a clean-URL result whose text
matches many rules is kept at risk 0. -/
theorem claim_C5_witness :
    is_domain_blocked ["evil.com"]
      (extract_host (fieldVal (⟨none, some "http://evil.com/page", none, none, none,
        none⟩ : ResultFields).url)) = true ∧
    on_result pm0 ["evil.com"] 0 ⟨none, some "http://evil.com/page", none, none, none, none⟩ =
      false ∧
    unsafeUrl (pyLower (fieldVal (⟨none, some "http://x.com/porn/a", none, none, none,
      none⟩ : ResultFields).url)) = true ∧
    on_result pm0 [] 0 ⟨none, some "http://x.com/porn/a", none, none, none, none⟩ = false ∧
    is_domain_blocked []
      (extract_host (fieldVal (⟨some "guns and bombs", some "http://ok.com/a", none, none, none,
        none⟩ : ResultFields).url)) = false ∧
    unsafeUrl (pyLower (fieldVal (⟨some "guns and bombs", some "http://ok.com/a", none, none,
      none, none⟩ : ResultFields).url)) = false ∧
    on_result pm0 [] 0 ⟨some "guns and bombs", some "http://ok.com/a", none, none, none, none⟩ =
      true := by
  exact ⟨by decide,
    (claim_C5 pm0 ["evil.com"] 0 ⟨none, some "http://evil.com/page", none, none, none, none⟩).1
      (Or.inl (by decide)),
    by decide,
    (claim_C5 pm0 [] 0 ⟨none, some "http://x.com/porn/a", none, none, none, none⟩).1
      (Or.inr (by decide)),
    by decide, by decide,
    (claim_C5 pm0 [] 0 ⟨some "guns and bombs", some "http://ok.com/a", none, none, none,
      none⟩).2 (by decide) (by decide) rfl⟩

/-- C6: `_is_domain_blocked` splits the host on `.` and is true iff some
contiguous suffix starting at a label position other than the last one is
a member of the blocked-domain set; with `"evil.example.com"` blocked,
`"sub.evil.example.com"` is blocked while `"example.com"` is not. -/
theorem claim_C6 (blocked : List String) (host : String) :
    (is_domain_blocked blocked host = true ↔
      ∃ i, i + 1 < (splitOnDot host.data).length ∧
        String.mk (joinDots ((splitOnDot host.data).drop i)) ∈ blocked) ∧
    is_domain_blocked ["evil.example.com"] "sub.evil.example.com" = true ∧
    is_domain_blocked ["evil.example.com"] "example.com" = false := by
  refine ⟨?_, by decide, by decide⟩
  by_cases hh : host = ""
  · subst hh
    rw [show is_domain_blocked blocked "" = false from rfl]
    simp only [Bool.false_eq_true, false_iff]
    rintro ⟨i, hi, -⟩
    have hlen : (splitOnDot ([] : List Char)).length = 1 := rfl
    omega
  · unfold is_domain_blocked
    rw [if_neg hh]
    simp only [List.any_eq_true, List.mem_range]
    constructor
    · rintro ⟨i, hi, hc⟩
      exact ⟨i, by omega, by simpa using hc⟩
    · rintro ⟨i, hi, hm⟩
      exact ⟨i, by omega, by simpa using hm⟩

/-- C7: at process start the blocked-domain set is empty and readiness is
not signalled, so every lookup returns "not blocked" (fail open); the
loader publishes, in one bulk replacement, exactly the union of the
per-source sets (a failed source contributing the empty set) and then
signals readiness. -/
theorem claim_C7 :
    (∀ host : String, is_domain_blocked initialBlocklistState.blocked host = false) ∧
    initialBlocklistState.ready = false ∧
    (∀ (outcomes : List (Option (List String))) (st : BlocklistState),
      (load_all_blocklists outcomes st).ready = true ∧
      ∀ d : String,
        d ∈ (load_all_blocklists outcomes st).blocked ↔ ∃ o ∈ outcomes, d ∈ fetch_single_list o) := by
  refine ⟨fun host => ?_, rfl, fun outcomes st => ⟨rfl, fun d => ?_⟩⟩
  · have h : initialBlocklistState.blocked = [] := rfl
    rw [h]
    unfold is_domain_blocked
    split <;> simp
  · simp [load_all_blocklists, List.mem_flatten, List.mem_map]

/-! ### C8: characterization of the boundary-delimited term matcher -/

lemma followOk_iff (b : List Char) :
    followOk b = true ↔
      (b = [] ∨ ∃ ch b2, b = ch :: b2 ∧
        (isSep ch = true ∨ ch = 's' ∨
         (ch = 'e' ∧ (b2.head? = some 's' ∨ b2.head? = some 'd')) ∨
         (ch = 'i' ∧ b2.take 2 = ['n', 'g']))) := by
  cases b with
  | nil => simp [followOk]
  | cons c b2 =>
    simp only [followOk, Bool.or_eq_true, Bool.and_eq_true, beq_iff_eq]
    constructor
    · intro h
      refine Or.inr ⟨c, b2, rfl, ?_⟩
      rcases h with ((h | h) | h) | h
      · exact Or.inl h
      · exact Or.inr (Or.inl h)
      · exact Or.inr (Or.inr (Or.inl ⟨h.1, by simpa using h.2⟩))
      · exact Or.inr (Or.inr (Or.inr ⟨h.1, by simpa using h.2⟩))
    · rintro (h | ⟨ch, b3, he, h⟩)
      · exact absurd h (by simp)
      · obtain ⟨rfl, rfl⟩ : ch = c ∧ b3 = b2 := by
          constructor <;> [exact (List.cons.injEq _ _ _ _ ▸ he).1.symm;
            exact (List.cons.injEq _ _ _ _ ▸ he).2.symm]
        rcases h with h | h | h | h
        · exact Or.inl (Or.inl (Or.inl h))
        · exact Or.inl (Or.inl (Or.inr h))
        · exact Or.inl (Or.inr ⟨h.1, by simpa using h.2⟩)
        · exact Or.inr ⟨h.1, by simpa using h.2⟩

lemma startsTermFollow_iff (t s : List Char) :
    startsTermFollow t s = true ↔ ∃ b, s = t ++ b ∧ followOk b = true := by
  unfold startsTermFollow
  simp only [Bool.and_eq_true, beq_iff_eq]
  constructor
  · rintro ⟨htake, hdrop⟩
    refine ⟨s.drop t.length, ?_, hdrop⟩
    conv_lhs => rw [← List.take_append_drop t.length s]
    rw [htake]
  · rintro ⟨b, rfl, hf⟩
    refine ⟨?_, ?_⟩
    · rw [List.take_left]
    · rw [List.drop_left]
      exact hf

lemma getElem?_append_cons (a : List Char) (c : Char) (r : List Char) :
    (a ++ c :: r)[a.length]? = some c := by
  induction a with
  | nil => simp
  | cons x xs ih => simpa using ih

/-- The compiled term matcher searches exactly for: the term, preceded by
start-of-string or a separator, and followed by end-of-string, a
separator, or one of the suffixes `s`, `es`, `ing`, `ed`. -/
lemma termSearch_iff (t s : List Char) :
    termSearch t s = true ↔
      ∃ a b : List Char, s = a ++ t ++ b ∧
        (a = [] ∨ ∃ a2 ch, a = a2 ++ [ch] ∧ isSep ch = true) ∧
        (b = [] ∨ ∃ ch b2, b = ch :: b2 ∧
          (isSep ch = true ∨ ch = 's' ∨
           (ch = 'e' ∧ (b2.head? = some 's' ∨ b2.head? = some 'd')) ∨
           (ch = 'i' ∧ b2.take 2 = ['n', 'g']))) := by
  unfold termSearch
  simp only [Bool.or_eq_true, List.any_eq_true, List.mem_range]
  constructor
  · rintro (h | ⟨j, hj, hcond⟩)
    · obtain ⟨b, rfl, hf⟩ := (startsTermFollow_iff t s).mp h
      exact ⟨[], b, by simp, Or.inl rfl, (followOk_iff b).mp hf⟩
    · obtain ⟨hsep, hstf⟩ := (Bool.and_eq_true _ _).mp hcond
      cases hget : s[j]? with
      | none => rw [hget] at hsep; simp at hsep
      | some c =>
        rw [hget] at hsep
        obtain ⟨b, hdrop, hf⟩ := (startsTermFollow_iff t (s.drop (j + 1))).mp hstf
        have hc : s[j] = c := by
          have := List.getElem?_eq_getElem hj
          rw [hget] at this
          exact (Option.some.injEq _ _ ▸ this).symm
        have hsplit : s = s.take j ++ c :: s.drop (j + 1) := by
          conv_lhs => rw [← List.take_append_drop j s]
          rw [List.drop_eq_getElem_cons hj, hc]
        refine ⟨s.take j ++ [c], b, ?_, Or.inr ⟨s.take j, c, rfl, hsep⟩, (followOk_iff b).mp hf⟩
        conv_lhs => rw [hsplit]
        rw [hdrop]
        simp
  · rintro ⟨a, b, rfl, hleft, hright⟩
    rcases hleft with rfl | ⟨a2, c, rfl, hsep⟩
    · exact Or.inl ((startsTermFollow_iff t _).mpr ⟨b, by simp, (followOk_iff b).mpr hright⟩)
    · right
      have hassoc : (a2 ++ [c]) ++ t ++ b = a2 ++ c :: (t ++ b) := by simp
      refine ⟨a2.length, ?_, ?_⟩
      · simp only [List.length_append, List.length_cons]
        omega
      · rw [hassoc]
        rw [(Bool.and_eq_true _ _)]
        refine ⟨?_, ?_⟩
        · rw [getElem?_append_cons]
          exact hsep
        · have hdrop : (a2 ++ c :: (t ++ b)).drop (a2.length + 1) = t ++ b := by
            have : a2 ++ c :: (t ++ b) = (a2 ++ [c]) ++ (t ++ b) := by simp
            rw [this, show a2.length + 1 = (a2 ++ [c]).length by simp, List.drop_left]
          rw [hdrop]
          exact (startsTermFollow_iff t _).mpr ⟨b, rfl, (followOk_iff b).mpr hright⟩

/-- C8: for every literal term of every category, the compiled matcher
matches a (lowercased) string iff the term occurs preceded by
start-of-string or a separator character and followed by a separator,
end-of-string, or one of the suffixes `s`, `es`, `ing`, `ed`. -/
theorem claim_C8 :
    ∀ c ∈ CATEGORIES, ∀ t ∈ c.terms, ∀ s : String,
      (termRule c t).test s = true ↔
        ∃ a b : List Char, s.data = a ++ t.data ++ b ∧
          (a = [] ∨ ∃ a2 ch, a = a2 ++ [ch] ∧ isSep ch = true) ∧
          (b = [] ∨ ∃ ch b2, b = ch :: b2 ∧
            (isSep ch = true ∨ ch = 's' ∨
             (ch = 'e' ∧ (b2.head? = some 's' ∨ b2.head? = some 'd')) ∨
             (ch = 'i' ∧ b2.take 2 = ['n', 'g']))) := by
  intro c _ t _ s
  simpa [termRule] using termSearch_iff t.data s.data

/-- Witness for C8 at the weapons term `"gun"` and the string
`"buy a gun"`, with sample concrete evaluations (inflection caught,
substring of an unrelated word not caught). -/
theorem claim_C8_witness :
    (CATEGORIES[0]!) ∈ CATEGORIES ∧
    "gun" ∈ (CATEGORIES[0]!).terms ∧
    ((termRule (CATEGORIES[0]!) "gun").test "buy a gun" = true ↔
      ∃ a b : List Char, "buy a gun".data = a ++ "gun".data ++ b ∧
        (a = [] ∨ ∃ a2 ch, a = a2 ++ [ch] ∧ isSep ch = true) ∧
        (b = [] ∨ ∃ ch b2, b = ch :: b2 ∧
          (isSep ch = true ∨ ch = 's' ∨
           (ch = 'e' ∧ (b2.head? = some 's' ∨ b2.head? = some 'd')) ∨
           (ch = 'i' ∧ b2.take 2 = ['n', 'g'])))) ∧
    (termRule (CATEGORIES[0]!) "gun").test "buy a gun" = true ∧
    (termRule (CATEGORIES[0]!) "gun").test "guns here" = true ∧
    (termRule (CATEGORIES[0]!) "gun").test "begun" = false ∧
    (termRule (CATEGORIES[0]!) "gun").test "gunk" = false := by
  exact ⟨by decide, by decide,
    claim_C8 (CATEGORIES[0]!) (by decide) "gun" (by decide) "buy a gun",
    by decide, by decide, by decide, by decide⟩

lemma on_result_empty_searchable (pm : String → String → Bool) (blocked : List String)
    (risk : Int) (res : ResultFields) (hurl : fieldVal res.url = "")
    (hs : searchableOf res = "") : on_result pm blocked risk res = true := by
  unfold on_result
  simp only [hurl, show extract_host "" = "" from rfl,
    show is_domain_blocked blocked "" = false from rfl,
    show unsafeUrl (pyLower "") = false from rfl, hs]
  simp

/-- C9: the boundary functions are total (every Lean model function below
is total by construction) and a missing or empty result field contributes
nothing: when every field is missing or empty the searchable string is
empty and `on_result` keeps the result for every blocklist, verdict risk
and pattern semantics — a result is never suppressed solely for missing
data. -/
theorem claim_C9 (pm : String → String → Bool) (blocked : List String) (risk : Int)
    (res : ResultFields)
    (h1 : res.title = none ∨ res.title = some "")
    (h2 : res.url = none ∨ res.url = some "")
    (h3 : res.content = none ∨ res.content = some "")
    (h4 : res.parsed_url = none ∨ res.parsed_url = some "")
    (h5 : res.img_src = none ∨ res.img_src = some "")
    (h6 : res.thumbnail = none ∨ res.thumbnail = some "") :
    searchableOf res = "" ∧ on_result pm blocked risk res = true := by
  have hs : searchableOf res = "" := by
    rcases h1 with h1 | h1 <;> rcases h2 with h2 | h2 <;> rcases h3 with h3 | h3 <;>
      rcases h4 with h4 | h4 <;> rcases h5 with h5 | h5 <;> rcases h6 with h6 | h6 <;>
      simp [searchableOf, partsOf, h1, h2, h3, h4, h5, h6, String.intercalate]
  have hurl : fieldVal res.url = "" := by
    rcases h2 with h2 | h2 <;> simp [h2, fieldVal]
  exact ⟨hs, on_result_empty_searchable pm blocked risk res hurl hs⟩

/-- Witness for C9: the all-absent result is kept even against a non-empty
blocklist and a positive verdict risk. -/
theorem claim_C9_witness :
    ((⟨none, none, none, none, none, none⟩ : ResultFields).title = none ∨
      (⟨none, none, none, none, none, none⟩ : ResultFields).title = some "") ∧
    searchableOf ⟨none, none, none, none, none, none⟩ = "" ∧
    on_result pm0 ["evil.com"] 90 ⟨none, none, none, none, none, none⟩ = true := by
  refine ⟨Or.inl rfl, ?_⟩
  exact claim_C9 pm0 ["evil.com"] 90 ⟨none, none, none, none, none, none⟩
    (Or.inl rfl) (Or.inl rfl) (Or.inl rfl) (Or.inl rfl) (Or.inl rfl) (Or.inl rfl)

lemma splitOnDot_no_dot : ∀ l : List Char, l.contains '.' = false → splitOnDot l = [l] := by
  intro l h
  induction l with
  | nil => rfl
  | cons c rest ih =>
    have hc : ¬(c = '.') ∧ rest.contains '.' = false := by
      constructor
      · intro he
        rw [he] at h
        simp [List.contains_cons] at h
      · by_contra hr
        simp only [Bool.not_eq_false] at hr
        rw [List.contains_cons, hr] at h
        simp at h
    unfold splitOnDot
    rw [if_neg hc.1, ih hc.2]

/-- C10: a URL without `"://"` yields the empty host, and a host with no
`'.'` (including the empty host) is never domain-blocked — even when that
exact string is a member of the blocked-domain set. -/
theorem claim_C10 :
    (∀ url : String, findSub "://".data url.data = none → extract_host url = "") ∧
    (∀ (blocked : List String) (host : String),
      host.data.contains '.' = false → is_domain_blocked blocked host = false) := by
  constructor
  · intro url h
    unfold extract_host
    rw [h]
  · intro blocked host hdot
    by_cases hh : host = ""
    · subst hh; rfl
    · unfold is_domain_blocked
      rw [if_neg hh, splitOnDot_no_dot host.data hdot]
      rfl

/-- Witness for C10: `"localhost:8080/x"` has no scheme so the host is
empty; `"localhost"` has no dot and is not blocked even though it is
itself in the blocked set. -/
theorem claim_C10_witness :
    findSub "://".data "localhost:8080/x".data = none ∧
    extract_host "localhost:8080/x" = "" ∧
    "localhost".data.contains '.' = false ∧
    is_domain_blocked ["localhost"] "localhost" = false := by
  refine ⟨by decide, claim_C10.1 "localhost:8080/x" (by decide), by decide,
    claim_C10.2 ["localhost"] "localhost" (by decide)⟩

end ContentFilter
